import Mathlib

/-!
# Verification of the black-hole physics layer

Shallow embedding of the `Physics` function library of the black-hole
visualization repository (source file `part_000`).  All scalar quantities are
modelled as real numbers; the display-formatting helper `formatValue`, whose
arithmetic is exact decimal scaling, is modelled over the rationals so that its
string outputs are computable.
-/

namespace Physics

noncomputable section

/-- Gravitational constant (m³/kg/s²), source constant `G`. -/
def G : ℝ := 6.67430e-11

/-- Speed of light (m/s), source constant `c`. -/
def c : ℝ := 299792458

/-- Solar mass (kg), source constant `solarMass`. -/
def solarMass : ℝ := 1.989e30

/-- Source function `calculateSchwarzschildRadius(mass)`: `rs = 2GM/c²`
converted to km. -/
def calculateSchwarzschildRadius (mass : ℝ) : ℝ :=
  let massKg := mass * solarMass
  let rs := (2 * G * massKg) / (c * c)
  rs / 1000

/-- Source function `calculateEventHorizon(mass)`: same as the Schwarzschild
radius. -/
def calculateEventHorizon (mass : ℝ) : ℝ :=
  calculateSchwarzschildRadius mass

/-- Source function `calculateISCO(mass, spin)`: the Z1/Z2 closed form used by
the source. -/
def calculateISCO (mass spin : ℝ) : ℝ :=
  let rs := calculateSchwarzschildRadius mass
  let Z1 := 1 + (1 - spin * spin) ^ ((1 : ℝ)/3) *
              ((1 + spin) ^ ((1 : ℝ)/3) + (1 - spin) ^ ((1 : ℝ)/3))
  let Z2 := Real.sqrt (3 * spin * spin + Z1 * Z1)
  rs * (3 + Z2 - Real.sqrt ((3 - Z1) * (3 + Z1 + 2 * Z2)))

/-- Source function `calculateLensingAngle(mass, impactParameter)`: guarded
simplified Einstein angle. -/
def calculateLensingAngle (mass impactParameter : ℝ) : ℝ :=
  if impactParameter = 0 then 0
  else (4 * calculateSchwarzschildRadius mass) / impactParameter

/-- Source function `calculateOrbitalVelocity(mass, radius)`: `sqrt(GM/r)`
with the radius given in km. -/
def calculateOrbitalVelocity (mass radius : ℝ) : ℝ :=
  Real.sqrt ((G * (mass * solarMass)) / (radius * 1000))

/-- RGB colour triple, mirroring the `{ r, g, b }` object of the source. -/
structure RGB where
  r : ℝ
  g : ℝ
  b : ℝ

/-- Cool band of the accretion colour map (`temp < 0.33` branch). -/
def accrBandCool (temp : ℝ) : RGB :=
  ⟨temp * 3.0, temp * 2.5, 1.0⟩

/-- Medium band of the accretion colour map (`0.33 ≤ temp < 0.66` branch). -/
def accrBandMedium (temp : ℝ) : RGB :=
  let t := (temp - 0.33) * 3.0
  ⟨0.33 + t * 0.67, 0.83 + t * 0.17, 1.0 - t * 0.3⟩

/-- Hot band of the accretion colour map (`temp ≥ 0.66` branch). -/
def accrBandHot (temp : ℝ) : RGB :=
  let t := (temp - 0.66) * 3.0
  ⟨1.0, 1.0 - t * 0.6, 0.7 - t * 0.6⟩

/-- Source function `calculateAccretionTemperature(mass, radius, colorTemp)`:
temperature
factor from radius, then the three-way piecewise colour map.  The `mass`
argument is accepted (as in the source) but never read by the body. -/
def calculateAccretionTemperature (_mass radius colorTemp : ℝ) : RGB :=
  let baseTempFactor := 1.0 / radius ^ (0.75 : ℝ)
  let temp := baseTempFactor * (0.5 + colorTemp * 0.5)
  if temp < 0.33 then accrBandCool temp
  else if temp < 0.66 then accrBandMedium temp
  else accrBandHot temp

/-- Source function `calculateSpacetimeCurvature(mass, x, y, z)`:
origin-guarded `rs/dist² · 100`. -/
def calculateSpacetimeCurvature (mass x y z : ℝ) : ℝ :=
  let dist := Real.sqrt (x * x + y * y + z * z)
  if dist = 0 then 0
  else (calculateSchwarzschildRadius mass / (dist * dist)) * 100

/-- Source function `calculatePhotonSphere(mass)`: `1.5 · rs`. -/
def calculatePhotonSphere (mass : ℝ) : ℝ :=
  calculateSchwarzschildRadius mass * 1.5

/-- Source function `calculateTimeDilation(mass, radius)`: 0 at or inside the
horizon, `sqrt(1 − rs/r)` outside. -/
def calculateTimeDilation (mass radius : ℝ) : ℝ :=
  let rs := calculateSchwarzschildRadius mass
  if radius ≤ rs then 0
  else Real.sqrt (1 - rs / radius)

/-- 3-vector, mirroring the `{ x, y, z }` objects of the source. -/
structure Vec3 where
  x : ℝ
  y : ℝ
  z : ℝ

/-- Source function `applyGravitationalLensing(ray, mass, position)`:
origin-guarded ray bending towards the centre. -/
def applyGravitationalLensing (ray : Vec3) (mass : ℝ) (position : Vec3) : Vec3 :=
  let dist := Real.sqrt (position.x * position.x +
    position.y * position.y + position.z * position.z)
  if dist = 0 then ray
  else
    let rs := calculateSchwarzschildRadius mass
    let bendingStrength := (rs / (dist * dist)) * 0.1
    let toCenter : Vec3 := ⟨-position.x / dist, -position.y / dist, -position.z / dist⟩
    ⟨ray.x + toCenter.x * bendingStrength,
     ray.y + toCenter.y * bendingStrength,
     ray.z + toCenter.z * bendingStrength⟩

end

/-- JavaScript `Number.prototype.toFixed(2)` on an exact rational value:
round the magnitude to the nearest multiple of 1/100 (ties away from zero
toward the larger integer, per the ECMAScript algorithm), prepend the sign,
and print with exactly two decimals. -/
def toFixed2 (x : ℚ) : String :=
  let sign := if x < 0 then "-" else ""
  let n : ℤ := ⌊|x| * 100 + 1/2⌋
  let whole := n / 100
  let frac := n % 100
  sign ++ toString whole ++ "." ++ (if frac < 10 then "0" else "") ++ toString frac

/-- Source function `formatValue(value, unit)`: magnitude-scaled display
string with mega-, kilo-, unit, or milli- thresholds at 1e6, 1e3, 1. -/
def formatValue (value : ℚ) (unit : String) : String :=
  if value ≥ 1000000 then toFixed2 (value / 1000000) ++ " M" ++ unit
  else if value ≥ 1000 then toFixed2 (value / 1000) ++ " k" ++ unit
  else if value ≥ 1 then toFixed2 value ++ " " ++ unit
  else toFixed2 (value * 1000) ++ " m" ++ unit



/-! ## Helper lemmas -/

/-- Evaluation lemma for `toFixed2` on a nonnegative input whose rounded
centi-value is known. -/
theorem toFixed2_of_nonneg (x : ℚ) (n : ℤ) (hx : 0 ≤ x)
    (hn : ⌊x * 100 + 1/2⌋ = n) :
    toFixed2 x = toString (n / 100) ++ "." ++
      (if n % 100 < 10 then "0" else "") ++ toString (n % 100) := by
  simp only [toFixed2]
  rw [if_neg (not_lt.mpr hx), abs_of_nonneg hx, hn]
  simp

/-- Evaluation lemma for `toFixed2` on a negative input whose rounded
centi-magnitude is known. -/
theorem toFixed2_of_neg (x : ℚ) (n : ℤ) (hx : x < 0)
    (hn : ⌊(-x) * 100 + 1/2⌋ = n) :
    toFixed2 x = "-" ++ toString (n / 100) ++ "." ++
      (if n % 100 < 10 then "0" else "") ++ toString (n % 100) := by
  simp only [toFixed2]
  rw [if_pos hx, abs_of_neg hx, hn]

/-! ## Claim theorems -/

/-- C8: `formatValue` selects its prefix by the thresholds 1e6 (mega),
1e3 (kilo), 1 (no prefix), otherwise milli, with two-decimal rounding, and in
particular formats 29.53 km as "29.53 km", 1500 km as "1.50 kkm" and 0.5 km
as "500.00 mkm". -/
theorem formatValue_thresholds_and_examples :
    (∀ (v : ℚ) (u : String), 1000000 ≤ v →
      formatValue v u = toFixed2 (v / 1000000) ++ " M" ++ u) ∧
    (∀ (v : ℚ) (u : String), 1000 ≤ v → v < 1000000 →
      formatValue v u = toFixed2 (v / 1000) ++ " k" ++ u) ∧
    (∀ (v : ℚ) (u : String), 1 ≤ v → v < 1000 →
      formatValue v u = toFixed2 v ++ " " ++ u) ∧
    (∀ (v : ℚ) (u : String), v < 1 →
      formatValue v u = toFixed2 (v * 1000) ++ " m" ++ u) ∧
    formatValue 29.53 "km" = "29.53 km" ∧
    formatValue 1500 "km" = "1.50 kkm" ∧
    formatValue 0.5 "km" = "500.00 mkm" := by
  refine ⟨?_, ?_, ?_, ?_, ?_, ?_, ?_⟩
  · intro v u hv
    simp only [formatValue]
    rw [if_pos hv]
  · intro v u hv hv2
    simp only [formatValue]
    rw [if_neg (not_le.mpr hv2), if_pos hv]
  · intro v u hv hv2
    simp only [formatValue]
    rw [if_neg (by linarith : ¬ v ≥ 1000000), if_neg (not_le.mpr hv2), if_pos hv]
  · intro v u hv
    simp only [formatValue]
    rw [if_neg (by linarith : ¬ v ≥ 1000000), if_neg (by linarith : ¬ v ≥ 1000),
      if_neg (not_le.mpr hv)]
  · have e : (29.53 : ℚ) = 2953/100 := by norm_num
    rw [e]
    simp only [formatValue]
    rw [if_neg (by norm_num), if_neg (by norm_num), if_pos (by norm_num),
      toFixed2_of_nonneg (2953/100) 2953 (by norm_num) (by norm_num [Int.floor_eq_iff])]
    decide
  · simp only [formatValue]
    rw [if_neg (by norm_num), if_pos (by norm_num),
      toFixed2_of_nonneg (1500/1000) 150 (by norm_num) (by norm_num [Int.floor_eq_iff])]
    decide
  · have e : (0.5 : ℚ) = 1/2 := by norm_num
    rw [e]
    simp only [formatValue]
    rw [if_neg (by norm_num), if_neg (by norm_num), if_neg (by norm_num),
      toFixed2_of_nonneg (1/2 * 1000) 50000 (by norm_num) (by norm_num [Int.floor_eq_iff])]
    decide

/-- Witness for C8: the mega branch applies at value 2000000. -/
theorem formatValue_thresholds_witness :
    (1000000 : ℚ) ≤ 2000000 ∧
    formatValue 2000000 "km" = toFixed2 (2000000 / 1000000) ++ " M" ++ "km" :=
  ⟨by norm_num, formatValue_thresholds_and_examples.1 2000000 "km" (by norm_num)⟩

/-- C10: `formatValue` is total below 1: every value strictly below 1
(including 0 and negative values) takes the milli branch, giving the value
scaled by 1000, rounded to two decimals, followed by " m" and the unit;
0 formats as "0.00 mkm" and -0.5 as "-500.00 mkm". -/
theorem formatValue_total_below_one :
    (∀ (v : ℚ) (u : String), v < 1 →
      formatValue v u = toFixed2 (v * 1000) ++ " m" ++ u) ∧
    formatValue 0 "km" = "0.00 mkm" ∧
    formatValue (-0.5) "km" = "-500.00 mkm" := by
  refine ⟨?_, ?_, ?_⟩
  · intro v u hv
    simp only [formatValue]
    rw [if_neg (by linarith : ¬ v ≥ 1000000), if_neg (by linarith : ¬ v ≥ 1000),
      if_neg (not_le.mpr hv)]
  · simp only [formatValue]
    rw [if_neg (by norm_num), if_neg (by norm_num), if_neg (by norm_num),
      toFixed2_of_nonneg (0 * 1000) 0 (by norm_num) (by norm_num [Int.floor_eq_iff])]
    decide
  · have e : (-0.5 : ℚ) = -(1/2) := by norm_num
    rw [e]
    simp only [formatValue]
    rw [if_neg (by norm_num), if_neg (by norm_num), if_neg (by norm_num),
      toFixed2_of_neg (-(1/2) * 1000) 50000 (by norm_num) (by norm_num [Int.floor_eq_iff])]
    decide

/-- Witness for C10: the milli branch applies at value -0.25. -/
theorem formatValue_total_witness :
    (-0.25 : ℚ) < 1 ∧
    formatValue (-0.25) "km" = toFixed2 (-0.25 * 1000) ++ " m" ++ "km" :=
  ⟨by norm_num, formatValue_total_below_one.1 (-0.25) "km" (by norm_num)⟩

/-- C5: `calculateLensingAngle` returns exactly 0 at impact parameter 0 (the
guard makes the division branch unreachable there), and `4·rs/b` for every
nonzero impact parameter `b`. -/
theorem lensingAngle_spec (mass impactParameter : ℝ) :
    calculateLensingAngle mass 0 = 0 ∧
    (impactParameter ≠ 0 →
      calculateLensingAngle mass impactParameter =
        4 * calculateSchwarzschildRadius mass / impactParameter) := by
  constructor
  · simp [calculateLensingAngle]
  · intro h
    simp only [calculateLensingAngle]
    rw [if_neg h]

/-- Witness for C5 at mass 1 and impact parameter 2. -/
theorem lensingAngle_witness :
    calculateLensingAngle 1 0 = 0 ∧
    calculateLensingAngle 1 2 = 4 * calculateSchwarzschildRadius 1 / 2 :=
  ⟨(lensingAngle_spec 1 2).1, (lensingAngle_spec 1 2).2 (by norm_num)⟩

/-- C7: for every positive mass the event horizon radius equals the
Schwarzschild radius and the photon sphere radius equals 1.5 times the
Schwarzschild radius. -/
theorem eventHorizon_photonSphere_spec (mass : ℝ) (h : 0 < mass) :
    calculateEventHorizon mass = calculateSchwarzschildRadius mass ∧
    calculatePhotonSphere mass = 1.5 * calculateSchwarzschildRadius mass := by
  refine ⟨rfl, ?_⟩
  simp only [calculatePhotonSphere]
  ring

/-- Witness for C7 at mass 1. -/
theorem eventHorizon_photonSphere_witness :
    (0:ℝ) < 1 ∧
    (calculateEventHorizon 1 = calculateSchwarzschildRadius 1 ∧
      calculatePhotonSphere 1 = 1.5 * calculateSchwarzschildRadius 1) :=
  ⟨by norm_num, eventHorizon_photonSphere_spec 1 (by norm_num)⟩

/-- C9: the accretion temperature colour does not depend on the mass
argument: any two masses give the same RGB triple at the same radius and
colour-temperature parameter. -/
theorem accretionTemperature_mass_independent (m1 m2 radius colorTemp : ℝ)
    (h : 0 < radius) :
    calculateAccretionTemperature m1 radius colorTemp =
      calculateAccretionTemperature m2 radius colorTemp := rfl

/-- Witness for C9 at masses 5 and 50, radius 2, colour temperature 1/2. -/
theorem accretionTemperature_mass_independent_witness :
    (0:ℝ) < 2 ∧
    calculateAccretionTemperature 5 2 (1/2) =
      calculateAccretionTemperature 50 2 (1/2) :=
  ⟨by norm_num, accretionTemperature_mass_independent 5 50 2 (1/2) (by norm_num)⟩

/-- C6: the curvature at the origin is exactly 0, ray bending at the origin
returns the ray unchanged (both via the guarded sentinel branch), and at any
point away from the origin the curvature is `rs/distance²·100`. -/
theorem originGuards_spec (mass x y z : ℝ) (ray : Vec3) :
    calculateSpacetimeCurvature mass 0 0 0 = 0 ∧
    applyGravitationalLensing ray mass ⟨0, 0, 0⟩ = ray ∧
    (¬(x = 0 ∧ y = 0 ∧ z = 0) →
      calculateSpacetimeCurvature mass x y z =
        calculateSchwarzschildRadius mass / (x * x + y * y + z * z) * 100) := by
  refine ⟨?_, ?_, ?_⟩
  · simp [calculateSpacetimeCurvature]
  · simp [applyGravitationalLensing]
  · intro h
    have hpos : 0 < x * x + y * y + z * z := by
      rcases not_and_or.mp h with hx | hyz
      · have := mul_self_pos.mpr hx
        nlinarith [mul_self_nonneg y, mul_self_nonneg z]
      · rcases not_and_or.mp hyz with hy | hz
        · have := mul_self_pos.mpr hy
          nlinarith [mul_self_nonneg x, mul_self_nonneg z]
        · have := mul_self_pos.mpr hz
          nlinarith [mul_self_nonneg x, mul_self_nonneg y]
    simp only [calculateSpacetimeCurvature]
    rw [if_neg (Real.sqrt_ne_zero'.mpr hpos), Real.mul_self_sqrt hpos.le]

/-- Witness for C6 at mass 1, point (3,4,0), ray (1,0,0). -/
theorem originGuards_witness :
    calculateSpacetimeCurvature 1 0 0 0 = 0 ∧
    applyGravitationalLensing ⟨1, 0, 0⟩ 1 ⟨0, 0, 0⟩ = (⟨1, 0, 0⟩ : Vec3) ∧
    calculateSpacetimeCurvature 1 3 4 0 =
      calculateSchwarzschildRadius 1 / (3 * 3 + 4 * 4 + 0 * 0) * 100 := by
  obtain ⟨h1, h2, h3⟩ := originGuards_spec 1 3 4 0 ⟨1, 0, 0⟩
  exact ⟨h1, h2, h3 (by norm_num)⟩

/-- C4 counterexample: the Schwarzschild radius of a 10-solar-mass black hole
is not within 0.01 km of the quoted reference value 29.53 km (the exact value
is about 29.5413 km). -/
theorem schwarzschild_ten_not_29_53 :
    0.01 < |calculateSchwarzschildRadius 10 - 29.53| := by
  have h : (29.54:ℝ) < calculateSchwarzschildRadius 10 := by
    norm_num [calculateSchwarzschildRadius, G, c, solarMass]
  rw [abs_of_pos (by linarith)]
  linarith

/-- C4 amended: `calculateSchwarzschildRadius` equals
`2·G·(mass·solarMass)/c²/1000` with the stated constants, and at mass 10 the
value is within 0.01 km of 29.54 km. -/
theorem schwarzschild_formula_spec :
    (∀ mass : ℝ, calculateSchwarzschildRadius mass =
      2 * 6.67430e-11 * (mass * 1.989e30) / 299792458 ^ 2 / 1000) ∧
    |calculateSchwarzschildRadius 10 - 29.54| < 0.01 := by
  constructor
  · intro mass
    simp only [calculateSchwarzschildRadius, G, c, solarMass]
    ring
  · rw [abs_sub_lt_iff]
    constructor <;> norm_num [calculateSchwarzschildRadius, G, c, solarMass]

/-- C1 (code evaluation): at spin 0 the ISCO formula of the source yields
exactly 6 times the Schwarzschild radius, not the documented 3 times; in
particular at mass 10 the result differs from `3·rs`. -/
theorem isco_spin_zero_eval :
    (∀ mass : ℝ, calculateISCO mass 0 = 6 * calculateSchwarzschildRadius mass) ∧
    calculateISCO 10 0 ≠ 3 * calculateSchwarzschildRadius 10 := by
  have h9 : Real.sqrt 9 = 3 := by
    rw [show (9:ℝ) = 3 ^ 2 by norm_num, Real.sqrt_sq (by norm_num : (0:ℝ) ≤ 3)]
  have key : ∀ mass : ℝ, calculateISCO mass 0 = 6 * calculateSchwarzschildRadius mass := by
    intro mass
    simp only [calculateISCO]
    norm_num [Real.one_rpow, h9, Real.sqrt_zero]
    try ring
  refine ⟨key, ?_⟩
  rw [key 10]
  have hrs : 0 < calculateSchwarzschildRadius 10 := by
    norm_num [calculateSchwarzschildRadius, G, c, solarMass]
  intro hEq
  nlinarith

/-- C2 counterexample: the red channel of the colour map jumps by 0.66 at the
band boundary temp = 0.33: the cool-branch formula evaluates to 0.99 there
while the medium-branch formula evaluates to 0.33, so the two one-sided
values do not differ by less than a small epsilon. -/
theorem accretionColor_jump_at_boundary :
    (accrBandCool 0.33).r - (accrBandMedium 0.33).r = 0.66 ∧
    ¬ |(accrBandCool 0.33).r - (accrBandMedium 0.33).r| < 0.01 := by
  have h : (accrBandCool 0.33).r - (accrBandMedium 0.33).r = 0.66 := by
    simp only [accrBandCool, accrBandMedium]
    norm_num
  refine ⟨h, ?_⟩
  rw [h, abs_of_pos (by norm_num)]
  norm_num

/-- C2 amended: the colour map is continuous (gap below 0.01) at temp = 0.33
in the g and b channels and at temp = 0.66 in all three channels, but the r
channel jumps by exactly 0.66 at temp = 0.33. -/
theorem accretionColor_boundary_gaps :
    |(accrBandCool 0.33).g - (accrBandMedium 0.33).g| < 0.01 ∧
    |(accrBandCool 0.33).b - (accrBandMedium 0.33).b| < 0.01 ∧
    |(accrBandMedium 0.66).r - (accrBandHot 0.66).r| < 0.01 ∧
    |(accrBandMedium 0.66).g - (accrBandHot 0.66).g| < 0.01 ∧
    |(accrBandMedium 0.66).b - (accrBandHot 0.66).b| < 0.01 ∧
    (accrBandCool 0.33).r - (accrBandMedium 0.33).r = 0.66 := by
  refine ⟨?_, ?_, ?_, ?_, ?_, ?_⟩ <;>
    simp only [accrBandCool, accrBandMedium, accrBandHot] <;>
    first
      | (rw [abs_sub_lt_iff]; exact ⟨by norm_num, by norm_num⟩)
      | norm_num

/-- C3: for every positive mass, the time dilation factor is exactly 0 at or
inside the horizon, equals `sqrt(1 − rs/radius)` outside it, and tends to 1
as the radius tends to infinity. -/
theorem timeDilation_spec (mass : ℝ) (h : 0 < mass) :
    (∀ radius, radius ≤ calculateSchwarzschildRadius mass →
      calculateTimeDilation mass radius = 0) ∧
    (∀ radius, calculateSchwarzschildRadius mass < radius →
      calculateTimeDilation mass radius =
        Real.sqrt (1 - calculateSchwarzschildRadius mass / radius)) ∧
    Filter.Tendsto (calculateTimeDilation mass) Filter.atTop (nhds 1) := by
  refine ⟨?_, ?_, ?_⟩
  · intro radius hr
    simp only [calculateTimeDilation]
    rw [if_pos hr]
  · intro radius hr
    simp only [calculateTimeDilation]
    rw [if_neg (not_le.mpr hr)]
  · have h0 : Filter.Tendsto (fun r : ℝ => calculateSchwarzschildRadius mass / r)
        Filter.atTop (nhds 0) := by
      simpa [div_eq_mul_inv] using
        tendsto_inv_atTop_zero.const_mul (calculateSchwarzschildRadius mass)
    have h1 : Filter.Tendsto
        (fun r : ℝ => 1 - calculateSchwarzschildRadius mass / r)
        Filter.atTop (nhds 1) := by
      simpa using tendsto_const_nhds.sub h0
    have h2 : Filter.Tendsto
        (fun r : ℝ => Real.sqrt (1 - calculateSchwarzschildRadius mass / r))
        Filter.atTop (nhds 1) := by
      have hc := (Real.continuous_sqrt.tendsto 1).comp h1
      simpa [Function.comp, Real.sqrt_one] using hc
    refine Filter.Tendsto.congr' ?_ h2
    filter_upwards [Filter.eventually_gt_atTop (calculateSchwarzschildRadius mass)]
      with r hr
    simp only [calculateTimeDilation]
    rw [if_neg (not_le.mpr hr)]

/-- Witness for C3 at mass 1. -/
theorem timeDilation_witness :
    (0:ℝ) < 1 ∧
    ((∀ radius, radius ≤ calculateSchwarzschildRadius 1 →
        calculateTimeDilation 1 radius = 0) ∧
      (∀ radius, calculateSchwarzschildRadius 1 < radius →
        calculateTimeDilation 1 radius =
          Real.sqrt (1 - calculateSchwarzschildRadius 1 / radius)) ∧
      Filter.Tendsto (calculateTimeDilation 1) Filter.atTop (nhds 1)) :=
  ⟨by norm_num, timeDilation_spec 1 (by norm_num)⟩

end Physics
